import Mathlib

/-!
Verification of the OSPRay loader-registry fragment
(`src/modules/loaders/SymbolRegistry.cpp`).

The source file under verification is the registration shim: three
`OSP_REGISTER_*` macro invocations that associate a (category, tag) pair
with a concrete loader factory.  The registry itself (`register`,
`lookup`, `create`) lives outside the supplied sources, so it is modelled
here from the specification (§3, §4.1, §7): a per-category map from tag
strings to factories, with an explicit duplicate-registration policy
(the spec leaves the policy to the implementer, so both policies are
modelled and compared).
-/

namespace OSPLoaders

/-- The loader categories, from spec §3: an enumerated value partitioning
the registry into independent namespaces. -/
inductive LoaderCategory where
  | ObjectFile
  | VolumeFile
  | TriangleMeshFile
deriving DecidableEq

/-- A loader tag: an immutable string identifying a file kind (spec §3). -/
abbrev LoaderTag := String

/-- Modelled from the spec: the registry state — per `LoaderCategory`, a
mapping from `LoaderTag` to a factory.  The registry implementation is not
among the supplied sources (only the registration shim is), so the state is
taken from spec §3: "process-wide state holding, per LoaderCategory, a
mapping from LoaderTag to LoaderFactory". -/
def RegistryMap (F : Type) : Type := LoaderCategory → LoaderTag → Option F

/-- The registry before any registration: no (category, tag) pair is bound. -/
def emptyRegistry {F : Type} : RegistryMap F := fun _ _ => none

/-- Bind `(c, t)` to `f`, leaving every other pair as it was. -/
def insertEntry {F : Type} (r : RegistryMap F) (c : LoaderCategory) (t : LoaderTag)
    (f : F) : RegistryMap F :=
  fun c' t' => if c' = c ∧ t' = t then some f else r c' t'

/-- The duplicate-registration policy.  Spec §3/§9: "registering the same
(category, tag) pair twice either overwrites deterministically or fails
with a DuplicateRegistration error (policy must be chosen explicitly by
the implementer since the source is silent)". -/
inductive DupPolicy where
  | reject
  | overwrite
deriving DecidableEq

/-- Registration-time error (spec §7). -/
inductive RegisterError where
  | DuplicateRegistration
deriving DecidableEq

/-- Lookup-time error (spec §7). -/
inductive LookupError where
  | UnknownLoader
deriving DecidableEq

/-- Modelled from the spec (§4.1): `register(category, tag, factory)`
installs a factory under the given category/tag pair; on a pair already
bound it follows the chosen duplicate policy — fail with
`DuplicateRegistration`, or overwrite deterministically. -/
def register {F : Type} (p : DupPolicy) (r : RegistryMap F) (c : LoaderCategory)
    (t : LoaderTag) (f : F) : Except RegisterError (RegistryMap F) :=
  match r c t, p with
  | some _, .reject => .error .DuplicateRegistration
  | some _, .overwrite => .ok (insertEntry r c t f)
  | none, _ => .ok (insertEntry r c t f)

/-- Modelled from the spec (§4.1): `lookup(category, tag)` returns the
registered factory, or fails with `UnknownLoader` if no match exists. -/
def lookup {F : Type} (r : RegistryMap F) (c : LoaderCategory) (t : LoaderTag) :
    Except LookupError F :=
  match r c t with
  | some f => .ok f
  | none => .error .UnknownLoader

/-- Errors out of `create` (spec §4.1/§7): either the lookup miss, or an
error raised by the factory itself, carried unchanged. -/
inductive LoaderError (E : Type) where
  | UnknownLoader
  | factoryError (e : E)
deriving DecidableEq

/-- Modelled from the spec (§4.1): `create(category, tag, source)` is the
composition of lookup and factory invocation; it propagates
`UnknownLoader`, and any error the factory raises is passed through
unchanged.  A factory is a function from a source to a loader instance or
a factory-specific error. -/
def create {S E I : Type} (r : RegistryMap (S → Except E I)) (c : LoaderCategory)
    (t : LoaderTag) (src : S) : Except (LoaderError E) I :=
  match lookup r c t with
  | .error _ => .error .UnknownLoader
  | .ok f =>
    match f src with
    | .ok i => .ok i
    | .error e => .error (.factoryError e)

/-- The three concrete loader types named in
`src/modules/loaders/SymbolRegistry.cpp`. -/
inductive ShimFactory where
  | OSPObjectFile
  | RawVolumeFile
  | PLYTriangleMeshFile
deriving DecidableEq

/-- The registration shim of `src/modules/loaders/SymbolRegistry.cpp`,
as (category, tag, factory) triples in source order:
`OSP_REGISTER_OBJECT_FILE(OSPObjectFile, osp)`,
`OSP_REGISTER_VOLUME_FILE(RawVolumeFile, raw)`,
`OSP_REGISTER_TRIANGLEMESH_FILE(PLYTriangleMeshFile, ply)`. -/
def shimRegistrations : List (LoaderCategory × LoaderTag × ShimFactory) :=
  [ (.ObjectFile, "osp", .OSPObjectFile),
    (.VolumeFile, "raw", .RawVolumeFile),
    (.TriangleMeshFile, "ply", .PLYTriangleMeshFile) ]

/-- Perform a sequence of `register` calls in order, stopping at the first
error (spec §4.2: the shim is "a sequence of init-time calls"). -/
def registerAll {F : Type} (p : DupPolicy) (r : RegistryMap F)
    (regs : List (LoaderCategory × LoaderTag × F)) : Except RegisterError (RegistryMap F) :=
  regs.foldlM (fun acc e => register p acc e.1 e.2.1 e.2.2) r

/-- Run the shim's three registrations from a given initial registry. -/
def runShimFrom (p : DupPolicy) (r : RegistryMap ShimFactory) :
    Except RegisterError (RegistryMap ShimFactory) :=
  registerAll p r shimRegistrations

/-- Run the shim from the empty registry, as at module initialization. -/
def runShim (p : DupPolicy) : Except RegisterError (RegistryMap ShimFactory) :=
  runShimFrom p emptyRegistry

/-- The registry state after the shim's three registrations. -/
def shimState : RegistryMap ShimFactory :=
  insertEntry
    (insertEntry
      (insertEntry emptyRegistry .ObjectFile "osp" .OSPObjectFile)
      .VolumeFile "raw" .RawVolumeFile)
    .TriangleMeshFile "ply" .PLYTriangleMeshFile

theorem runShim_eq_shimState (p : DupPolicy) : runShim p = .ok shimState := by
  cases p <;> rfl

theorem insertEntry_apply_self {F : Type} (r : RegistryMap F) (c : LoaderCategory)
    (t : LoaderTag) (f : F) : insertEntry r c t f c t = some f := by
  simp [insertEntry]

theorem insertEntry_apply_ne {F : Type} (r : RegistryMap F) {c t c' t' : _} (f : F)
    (h : ¬(c' = c ∧ t' = t)) : insertEntry r c t f c' t' = r c' t' := by
  simp [insertEntry, h]

theorem insertEntry_comm {F : Type} (r : RegistryMap F) {c₁ t₁ c₂ t₂ : _} (f₁ f₂ : F)
    (h : ¬(c₁ = c₂ ∧ t₁ = t₂)) :
    insertEntry (insertEntry r c₁ t₁ f₁) c₂ t₂ f₂
      = insertEntry (insertEntry r c₂ t₂ f₂) c₁ t₁ f₁ := by
  funext c t
  by_cases h₁ : c = c₁ ∧ t = t₁ <;> by_cases h₂ : c = c₂ ∧ t = t₂
  · exact absurd ⟨h₁.1.symm.trans h₂.1, h₁.2.symm.trans h₂.2⟩ h
  · simp [insertEntry, h₁, h₂]
    intro ha hb
    exact absurd ⟨ha, hb⟩ h
  · simp [insertEntry, h₁, h₂]
    rw [if_neg (fun hx => h ⟨hx.1.symm, hx.2.symm⟩)]
  · simp [insertEntry, h₁, h₂]

theorem register_of_bound {F : Type} {r : RegistryMap F} {c t g} (p : DupPolicy) (f : F)
    (h : r c t = some g) :
    register p r c t f = match p with
      | .reject => .error .DuplicateRegistration
      | .overwrite => .ok (insertEntry r c t f) := by
  cases p <;> simp [register, h]

theorem register_of_not_bound {F : Type} {r : RegistryMap F} {c t} (p : DupPolicy) (f : F)
    (h : r c t = none) : register p r c t f = .ok (insertEntry r c t f) := by
  cases p <;> simp [register, h]

theorem register_ok_eq {F : Type} {p : DupPolicy} {r : RegistryMap F} {c t f r'}
    (h : register p r c t f = .ok r') : r' = insertEntry r c t f := by
  unfold register at h
  split at h <;> simp_all

theorem lookup_insertEntry_self {F : Type} (r : RegistryMap F) (c : LoaderCategory)
    (t : LoaderTag) (f : F) : lookup (insertEntry r c t f) c t = .ok f := by
  simp [lookup, insertEntry]

/-- C1: at module/process initialization the registration shim performs exactly
three register calls, whose argument triples are exactly
(ObjectFile, "osp", XML scene-object loader), (VolumeFile, "raw", raw-volume
loader), (TriangleMeshFile, "ply", PLY triangle-mesh loader): the shim's call
list has length three, running it from the empty registry succeeds under either
duplicate policy producing `shimState`, and `shimState` binds a factory to a
(category, tag) pair iff the triple is one of those three — no more, no fewer,
and no other (category, tag) pairs. -/
theorem shim_registers_exactly_three :
    shimRegistrations.length = 3 ∧
    (∀ p, runShim p = .ok shimState) ∧
    (∀ c t f, lookup shimState c t = .ok f ↔
      (c = .ObjectFile ∧ t = "osp" ∧ f = .OSPObjectFile) ∨
      (c = .VolumeFile ∧ t = "raw" ∧ f = .RawVolumeFile) ∨
      (c = .TriangleMeshFile ∧ t = "ply" ∧ f = .PLYTriangleMeshFile)) := by
  refine ⟨rfl, runShim_eq_shimState, ?_⟩
  intro c t f
  cases c <;>
    by_cases h₁ : t = "osp" <;> by_cases h₂ : t = "raw" <;> by_cases h₃ : t = "ply" <;>
      simp_all [lookup, shimState, insertEntry, emptyRegistry, eq_comm]

/-- C1 witness: instantiating the exact-registration theorem at the pair
(ObjectFile, "osp") and at the unregistered pair (ObjectFile, "obj"). -/
theorem shim_registers_exactly_three_witness :
    lookup shimState .ObjectFile "osp" = .ok .OSPObjectFile ∧
    ¬ lookup shimState .ObjectFile "obj" = .ok .OSPObjectFile :=
  ⟨(shim_registers_exactly_three.2.2 .ObjectFile "osp" .OSPObjectFile).2
      (Or.inl ⟨rfl, rfl, rfl⟩),
    fun h => by
      have := (shim_registers_exactly_three.2.2 .ObjectFile "obj" .OSPObjectFile).1 h
      simp at this⟩

/-- C2: a successfully registered (category, tag, factory) triple is returned
by lookup on the resulting state; registering a different pair afterwards does
not disturb it; and after the shim runs, lookups of (ObjectFile, "osp"),
(VolumeFile, "raw"), (TriangleMeshFile, "ply") each return exactly the factory
the shim registered for that pair. -/
theorem lookup_returns_registered :
    (∀ (F : Type) (p : DupPolicy) (r r' : RegistryMap F) c t f,
      register p r c t f = .ok r' → lookup r' c t = .ok f) ∧
    (∀ (F : Type) (p : DupPolicy) (r r' : RegistryMap F) c t c₂ t₂ f₂,
      register p r c₂ t₂ f₂ = .ok r' → ¬(c = c₂ ∧ t = t₂) →
      lookup r' c t = lookup r c t) ∧
    (∀ p, ∃ s, runShim p = .ok s ∧
      lookup s .ObjectFile "osp" = .ok .OSPObjectFile ∧
      lookup s .VolumeFile "raw" = .ok .RawVolumeFile ∧
      lookup s .TriangleMeshFile "ply" = .ok .PLYTriangleMeshFile) := by
  refine ⟨?_, ?_, ?_⟩
  · intro F p r r' c t f h
    rw [register_ok_eq h]
    exact lookup_insertEntry_self r c t f
  · intro F p r r' c t c₂ t₂ f₂ h hne
    rw [register_ok_eq h]
    unfold lookup
    rw [insertEntry_apply_ne r f₂ hne]
  · intro p
    exact ⟨shimState, runShim_eq_shimState p, rfl, rfl, rfl⟩

/-- C2 witness: registering (ObjectFile, "osp") on the empty registry and
looking it up, at concrete inputs. -/
theorem lookup_returns_registered_witness :
    lookup (insertEntry emptyRegistry .ObjectFile "osp" ShimFactory.OSPObjectFile)
      .ObjectFile "osp" = .ok .OSPObjectFile :=
  lookup_returns_registered.1 ShimFactory .reject emptyRegistry _
    .ObjectFile "osp" .OSPObjectFile rfl

/-- C3: lookup on a (category, tag) pair with no registration fails with
UnknownLoader and returns no factory; in particular, after the shim's three
registrations, lookup(TriangleMeshFile, "obj") fails with UnknownLoader. -/
theorem lookup_unregistered_fails :
    (∀ (F : Type) (r : RegistryMap F) (c : LoaderCategory) (t : LoaderTag),
      r c t = none → lookup r c t = .error .UnknownLoader) ∧
    lookup shimState .TriangleMeshFile "obj" = .error .UnknownLoader := by
  constructor
  · intro F r c t h
    simp [lookup, h]
  · rfl

/-- C3 witness: the general unregistered-lookup theorem applied to the empty
registry at (TriangleMeshFile, "obj"). -/
theorem lookup_unregistered_fails_witness :
    lookup (emptyRegistry (F := ShimFactory)) .TriangleMeshFile "obj"
      = .error .UnknownLoader :=
  lookup_unregistered_fails.1 ShimFactory emptyRegistry .TriangleMeshFile "obj" rfl

/-- C4: create is exactly lookup followed by factory invocation: a lookup miss
makes create fail with UnknownLoader; a lookup hit makes create return the
factory's result on the source, with any factory error carried through
unchanged — in particular create on a registered pair never fails with
UnknownLoader. -/
theorem create_composes :
    ∀ (S E I : Type) (r : RegistryMap (S → Except E I)) (c : LoaderCategory)
      (t : LoaderTag) (src : S),
      (lookup r c t = .error .UnknownLoader → create r c t src = .error .UnknownLoader) ∧
      (∀ f, lookup r c t = .ok f →
        (∀ i, f src = .ok i → create r c t src = .ok i) ∧
        (∀ e, f src = .error e → create r c t src = .error (.factoryError e)) ∧
        create r c t src ≠ .error .UnknownLoader) := by
  intro S E I r c t src
  constructor
  · intro h
    simp [create, h]
  · intro f hf
    refine ⟨?_, ?_, ?_⟩
    · intro i hi
      simp [create, hf, hi]
    · intro e he
      simp [create, hf, he]
    · cases hs : f src with
      | ok i => simp [create, hf, hs]
      | error e => simp [create, hf, hs]

/-- A demonstration factory, sources modelled by a validity flag: a valid
source yields instance 1, a corrupt one raises the parser error 7. -/
def rawDemoFactory : Bool → Except Nat Nat :=
  fun valid => if valid then .ok 1 else .error 7

/-- A registry binding (VolumeFile, "raw") to the demonstration factory. -/
def rawDemoRegistry : RegistryMap (Bool → Except Nat Nat) :=
  insertEntry emptyRegistry .VolumeFile "raw" rawDemoFactory

/-- C4 witness: on the demonstration registry, create of (VolumeFile, "raw")
on a valid source returns the instance, on a corrupt source returns the
parser's own error (not UnknownLoader), and create of an unregistered tag
fails with UnknownLoader. -/
theorem create_composes_witness :
    create rawDemoRegistry .VolumeFile "raw" true = .ok 1 ∧
    create rawDemoRegistry .VolumeFile "raw" false = .error (.factoryError 7) ∧
    create rawDemoRegistry .VolumeFile "osp" true = .error .UnknownLoader :=
  ⟨((create_composes Bool Nat Nat rawDemoRegistry .VolumeFile "raw" true).2
      rawDemoFactory rfl).1 1 rfl,
    ((create_composes Bool Nat Nat rawDemoRegistry .VolumeFile "raw" false).2
      rawDemoFactory rfl).2.1 7 rfl,
    (create_composes Bool Nat Nat rawDemoRegistry .VolumeFile "osp" true).1 rfl⟩

/-- C5: on a registry already holding a factory under (category, tag), a
second register call follows the chosen policy deterministically: under
reject it fails with DuplicateRegistration and the existing entry stays in
place; under overwrite it succeeds and replaces exactly that entry, so that
subsequent lookup returns the new factory while every other pair is
untouched. -/
theorem register_duplicate_policy :
    ∀ (F : Type) (r : RegistryMap F) (c : LoaderCategory) (t : LoaderTag) (f₁ f₂ : F),
      r c t = some f₁ →
      (register .reject r c t f₂ = .error .DuplicateRegistration ∧
        lookup r c t = .ok f₁) ∧
      (∃ r', register .overwrite r c t f₂ = .ok r' ∧ lookup r' c t = .ok f₂ ∧
        ∀ c' t', ¬(c' = c ∧ t' = t) → r' c' t' = r c' t') := by
  intro F r c t f₁ f₂ h
  refine ⟨⟨?_, ?_⟩, insertEntry r c t f₂, ?_, lookup_insertEntry_self r c t f₂, ?_⟩
  · rw [register_of_bound .reject f₂ h]
  · simp [lookup, h]
  · rw [register_of_bound .overwrite f₂ h]
  · intro c' t' hne
    exact insertEntry_apply_ne r f₂ hne

/-- A one-entry registry holding (ObjectFile, "osp"), for the duplicate
registration scenario. -/
def dupDemoRegistry : RegistryMap ShimFactory :=
  insertEntry emptyRegistry .ObjectFile "osp" .OSPObjectFile

/-- C5 witness: registering "osp" twice under ObjectFile — under reject the
second call fails and the first factory stays; under overwrite the second
factory wins. -/
theorem register_duplicate_policy_witness :
    (register .reject dupDemoRegistry .ObjectFile "osp" .RawVolumeFile
        = .error .DuplicateRegistration ∧
      lookup dupDemoRegistry .ObjectFile "osp" = .ok .OSPObjectFile) ∧
    (∃ r', register .overwrite dupDemoRegistry .ObjectFile "osp" .RawVolumeFile = .ok r' ∧
      lookup r' .ObjectFile "osp" = .ok .RawVolumeFile ∧
      ∀ c' t', ¬(c' = LoaderCategory.ObjectFile ∧ t' = "osp") →
        r' c' t' = dupDemoRegistry c' t') :=
  register_duplicate_policy ShimFactory dupDemoRegistry .ObjectFile "osp"
    .OSPObjectFile .RawVolumeFile rfl

/-- C6: the categories are independent namespaces: a registration under one
category leaves every other category's tag-to-factory mapping unchanged, and
the same tag may simultaneously be bound to different factories in different
categories. -/
theorem categories_independent :
    (∀ (F : Type) (p : DupPolicy) (r r' : RegistryMap F) c t f,
      register p r c t f = .ok r' →
      ∀ c' t', c' ≠ c → r' c' t' = r c' t') ∧
    (∀ (F : Type) (c₁ c₂ : LoaderCategory) (t : LoaderTag) (f₁ f₂ : F), c₁ ≠ c₂ →
      lookup (insertEntry (insertEntry emptyRegistry c₁ t f₁) c₂ t f₂) c₁ t = .ok f₁ ∧
      lookup (insertEntry (insertEntry emptyRegistry c₁ t f₁) c₂ t f₂) c₂ t = .ok f₂) := by
  constructor
  · intro F p r r' c t f h c' t' hc
    rw [register_ok_eq h]
    exact insertEntry_apply_ne r f (fun hx => hc hx.1)
  · intro F c₁ c₂ t f₁ f₂ hne
    constructor
    · have h1 : insertEntry (insertEntry emptyRegistry c₁ t f₁) c₂ t f₂ c₁ t = some f₁ := by
        rw [insertEntry_apply_ne _ f₂ (fun hx => hne hx.1)]
        exact insertEntry_apply_self _ c₁ t f₁
      simp [lookup, h1]
    · exact lookup_insertEntry_self _ c₂ t f₂

/-- C6 witness: registering under ObjectFile does not disturb VolumeFile, and
the tag "raw" is simultaneously bound to different factories under ObjectFile
and VolumeFile. -/
theorem categories_independent_witness :
    insertEntry emptyRegistry .ObjectFile "osp" ShimFactory.OSPObjectFile .VolumeFile "osp"
        = emptyRegistry .VolumeFile "osp" ∧
    (lookup (insertEntry (insertEntry emptyRegistry LoaderCategory.ObjectFile "raw"
          ShimFactory.OSPObjectFile) .VolumeFile "raw" .RawVolumeFile) .ObjectFile "raw"
        = .ok .OSPObjectFile ∧
      lookup (insertEntry (insertEntry emptyRegistry LoaderCategory.ObjectFile "raw"
          ShimFactory.OSPObjectFile) .VolumeFile "raw" .RawVolumeFile) .VolumeFile "raw"
        = .ok .RawVolumeFile) :=
  ⟨categories_independent.1 ShimFactory .overwrite emptyRegistry _ .ObjectFile "osp"
      .OSPObjectFile rfl .VolumeFile "osp" (by decide),
    categories_independent.2 ShimFactory .ObjectFile .VolumeFile "raw"
      .OSPObjectFile .RawVolumeFile (by decide)⟩

/-- One registration step over an error-carrying registry accumulator, as
`registerAll` performs it. -/
def registerStep {F : Type} (p : DupPolicy) (acc : Except RegisterError (RegistryMap F))
    (e : LoaderCategory × LoaderTag × F) : Except RegisterError (RegistryMap F) :=
  match acc with
  | .error err => .error err
  | .ok r => register p r e.1 e.2.1 e.2.2

theorem foldl_registerStep_error {F : Type} (p : DupPolicy) (err : RegisterError)
    (regs : List (LoaderCategory × LoaderTag × F)) :
    regs.foldl (registerStep p) (.error err) = .error err := by
  induction regs with
  | nil => rfl
  | cons e rest ih => exact ih

theorem registerAll_eq_foldl {F : Type} (p : DupPolicy) (r : RegistryMap F)
    (regs : List (LoaderCategory × LoaderTag × F)) :
    registerAll p r regs = regs.foldl (registerStep p) (.ok r) := by
  induction regs generalizing r with
  | nil => rfl
  | cons e rest ih =>
    have hcons : (e :: rest).foldl (registerStep p) (Except.ok r)
        = rest.foldl (registerStep p) (register p r e.1 e.2.1 e.2.2) := rfl
    rw [hcons]
    show (register p r e.1 e.2.1 e.2.2 >>= fun r' => registerAll p r' rest) = _
    cases h : register p r e.1 e.2.1 e.2.2 with
    | error err =>
      rw [foldl_registerStep_error]
      rfl
    | ok r' =>
      exact ih r'

theorem register_overwrite_eq {F : Type} (r : RegistryMap F) (c : LoaderCategory)
    (t : LoaderTag) (f : F) :
    register .overwrite r c t f = .ok (insertEntry r c t f) := by
  cases h : r c t with
  | none => exact register_of_not_bound _ f h
  | some g => rw [register_of_bound .overwrite f h]

theorem register_reject_of_bound {F : Type} {r : RegistryMap F} {c t g} (f : F)
    (h : r c t = some g) :
    register .reject r c t f = .error .DuplicateRegistration := by
  rw [register_of_bound .reject f h]

theorem registerStep_comm {F : Type} (p : DupPolicy)
    {x y : LoaderCategory × LoaderTag × F}
    (h : x = y ∨ ¬(x.1 = y.1 ∧ x.2.1 = y.2.1)) (z : Except RegisterError (RegistryMap F)) :
    registerStep p (registerStep p z x) y = registerStep p (registerStep p z y) x := by
  rcases h with h | h
  · rw [h]
  cases z with
  | error err => rfl
  | ok r =>
    obtain ⟨cx, tx, fx⟩ := x
    obtain ⟨cy, ty, fy⟩ := y
    simp only at h
    show registerStep p (register p r cx tx fx) (cy, ty, fy)
        = registerStep p (register p r cy ty fy) (cx, tx, fx)
    have hyx : ¬(cy = cx ∧ ty = tx) := fun hx => h ⟨hx.1.symm, hx.2.symm⟩
    cases p with
    | overwrite =>
      rw [register_overwrite_eq r cx tx fx, register_overwrite_eq r cy ty fy]
      show register .overwrite (insertEntry r cx tx fx) cy ty fy
          = register .overwrite (insertEntry r cy ty fy) cx tx fx
      rw [register_overwrite_eq, register_overwrite_eq]
      exact congrArg Except.ok (insertEntry_comm r fx fy h)
    | reject =>
      cases hx : r cx tx with
      | some g =>
        cases hy : r cy ty with
        | some g' =>
          rw [register_reject_of_bound fx hx, register_reject_of_bound fy hy]
          rfl
        | none =>
          rw [register_reject_of_bound fx hx, register_of_not_bound .reject fy hy]
          show Except.error RegisterError.DuplicateRegistration
              = register .reject (insertEntry r cy ty fy) cx tx fx
          have hb : insertEntry r cy ty fy cx tx = some g := by
            rw [insertEntry_apply_ne r fy h]
            exact hx
          rw [register_reject_of_bound fx hb]
      | none =>
        cases hy : r cy ty with
        | some g' =>
          rw [register_of_not_bound .reject fx hx, register_reject_of_bound fy hy]
          show register .reject (insertEntry r cx tx fx) cy ty fy
              = Except.error RegisterError.DuplicateRegistration
          have hb : insertEntry r cx tx fx cy ty = some g' := by
            rw [insertEntry_apply_ne r fx hyx]
            exact hy
          rw [register_reject_of_bound fy hb]
        | none =>
          rw [register_of_not_bound .reject fx hx, register_of_not_bound .reject fy hy]
          show register .reject (insertEntry r cx tx fx) cy ty fy
              = register .reject (insertEntry r cy ty fy) cx tx fx
          have h₁ : insertEntry r cx tx fx cy ty = none := by
            rw [insertEntry_apply_ne r fx hyx]; exact hy
          have h₂ : insertEntry r cy ty fy cx tx = none := by
            rw [insertEntry_apply_ne r fy h]; exact hx
          rw [register_of_not_bound .reject fy h₁, register_of_not_bound .reject fx h₂]
          exact congrArg Except.ok (insertEntry_comm r fx fy h)

/-- C7: the registry state reached from the empty registry is the same for
every order of the shim's three register calls: running any permutation of
the shim's registration list gives exactly `runShim`'s result, under either
duplicate policy. -/
theorem shim_order_independent :
    ∀ (p : DupPolicy) (l : List (LoaderCategory × LoaderTag × ShimFactory)),
      l.Perm shimRegistrations → registerAll p emptyRegistry l = runShim p := by
  intro p l hperm
  show registerAll p emptyRegistry l = registerAll p emptyRegistry shimRegistrations
  rw [registerAll_eq_foldl, registerAll_eq_foldl]
  refine (List.Perm.foldl_eq' hperm.symm ?_ _).symm
  intro x hx y hy z
  apply registerStep_comm
  fin_cases hx <;> fin_cases hy <;> simp

/-- C7 witness: running the shim's three registrations in reversed order from
the empty registry gives the same outcome as the source order. -/
theorem shim_order_independent_witness :
    registerAll .reject emptyRegistry
      [ (.TriangleMeshFile, "ply", .PLYTriangleMeshFile),
        (.VolumeFile, "raw", .RawVolumeFile),
        (.ObjectFile, "osp", .OSPObjectFile) ] = runShim .reject :=
  shim_order_independent .reject _ (by decide)

/-- The operations available after startup (spec §4.1): lookups and creates,
keyed reads of the registry. -/
inductive ReadOp (S : Type) where
  | doLookup (c : LoaderCategory) (t : LoaderTag)
  | doCreate (c : LoaderCategory) (t : LoaderTag) (src : S)

/-- Modelled from the spec: post-startup operation of the registry.  Spec §3
lifecycle — "populated once at startup …; read thereafter; never mutated
during normal operation" — and §4.1, where `register` alone carries the
side effect "mutates process-wide state": a read operation computes its
result from the registry and hands the registry state on. -/
def applyReadOp {S E I : Type} (r : RegistryMap (S → Except E I)) :
    ReadOp S → RegistryMap (S → Except E I)
  | .doLookup c t => (lookup r c t, r).2
  | .doCreate c t src => (create r c t src, r).2

/-- Run a sequence of post-startup read operations, threading the registry
state through. -/
def runReads {S E I : Type} (r : RegistryMap (S → Except E I)) :
    List (ReadOp S) → RegistryMap (S → Except E I)
  | [] => r
  | op :: ops => runReads (applyReadOp r op) ops

/-- C8: lookups (and creates) never mutate the registry: any sequence of
post-startup read operations leaves the registry state exactly as the
init-time registrations left it. -/
theorem lookups_leave_registry_unchanged :
    ∀ (S E I : Type) (r : RegistryMap (S → Except E I)) (ops : List (ReadOp S)),
      runReads r ops = r := by
  intro S E I r ops
  induction ops generalizing r with
  | nil => rfl
  | cons op rest ih =>
    cases op with
    | doLookup c t => exact ih r
    | doCreate c t src => exact ih r

/-- C9: the three (category, tag) pairs the shim registers are pairwise
distinct — the three tags are pairwise distinct strings and the three
categories are pairwise distinct — so the shim run from the empty registry
never reaches the duplicate-registration case: it succeeds under the
reject policy, and the reject and overwrite policies produce identical
final registry states. -/
theorem shim_pairs_distinct_policies_agree :
    (shimRegistrations.map (fun e => (e.1, e.2.1))).Nodup ∧
    (shimRegistrations.map (fun e => e.2.1)).Nodup ∧
    (shimRegistrations.map (fun e => e.1)).Nodup ∧
    runShim .reject = .ok shimState ∧
    runShim .overwrite = .ok shimState ∧
    runShim .reject = runShim .overwrite :=
  ⟨by decide, by decide, by decide, rfl, rfl, rfl⟩

/-- C10: the registration shim is deterministic: run from equal initial
registry states it produces equal final states, and every run of process
initialization from the empty registry — under either duplicate policy —
yields the same (category, tag) to factory mapping, `shimState`. -/
theorem shim_deterministic :
    (∀ (p : DupPolicy) (r₁ r₂ : RegistryMap ShimFactory), r₁ = r₂ →
      runShimFrom p r₁ = runShimFrom p r₂) ∧
    (∀ p p', runShim p = runShim p' ∧ runShim p = .ok shimState) := by
  refine ⟨fun p r₁ r₂ h => by rw [h], fun p p' => ⟨?_, runShim_eq_shimState p⟩⟩
  rw [runShim_eq_shimState p, runShim_eq_shimState p']

/-- C10 witness: the determinism theorem applied to two runs from the empty
registry. -/
theorem shim_deterministic_witness :
    runShimFrom .reject emptyRegistry = runShimFrom .reject emptyRegistry ∧
    runShim .reject = .ok shimState :=
  ⟨shim_deterministic.1 .reject emptyRegistry emptyRegistry rfl,
    (shim_deterministic.2 .reject .overwrite).2⟩

end OSPLoaders
